import Mathlib

/-!
pipe-preview: the reactive preview engine of `tpp.go`

A shallow embedding of `PipePreview` (`NewPipePreview`, `Flush`, `RunCmd`,
`Update`) and theorems about it.

The program is built on three external collaborators that are not part of the
repository: the line editor (`textinput.Model`), the scrollable viewer
(`viewport.Model`) and the operating system's process runner (`exec.Cmd.Run`).
Their state is modelled by records holding the fields the program reads and
writes; what they *compute* (`Update`, `SetYOffset`, `SetContent`, the rendered
heights, the outcome of a subprocess) is taken as a parameter, the structure
`Lib`.  Theorems that need a fact about a collaborator state it as a hypothesis.
`refLib` is one concrete collaborator set, used to evaluate the program on
concrete inputs.

Side effects are returned as values: `RunCmd` returns the list of commands on
which it called `cmd.Run()` (a command whose process fails to start is in the
list too), `Update` returns an `UpdateResult` with the model, whether the
returned command is `tea.Quit`, the calls of `cmd.Run()` and the clipboard
writes, and `Flush` returns what it writes to the two output streams.
-/

namespace PipePreview

/-! ## Events -/

/-- The messages `Update` distinguishes: `tea.KeyMsg` (carrying `msg.String()`),
`tea.WindowSizeMsg`, and every other message type (mouse, cursor blink, ...). -/
inductive Msg where
  | key (k : String)
  | windowSize (Width Height : Int)
  | other (tag : Nat)
deriving DecidableEq, Repr

/-! ## Collaborator state -/

/-- The part of a `lipgloss.Style` the program touches. -/
structure Style where
  faint : Bool
  padV : Nat
  padH : Nat
deriving DecidableEq, Repr

/-- `Style.Faint(b)`. -/
def Style.Faint (s : Style) (b : Bool) : Style := { s with faint := b }

/-- `Style.Padding(v, h)`. -/
def Style.Padding (s : Style) (v h : Nat) : Style := { s with padV := v, padH := h }

/-- The zero `lipgloss.Style`. -/
def Style.zero : Style := { faint := false, padV := 0, padH := 0 }

/-- State of `textinput.Model`: the text, the cursor, the focus flag and the
presentation fields `tpp.go` assigns. -/
structure TextInput where
  value : String
  pos : Nat
  focus : Bool
  Prompt : String
  PromptStyle : Style
  TextStyle : Style
deriving DecidableEq, Repr

/-- `textinput.New()`: empty, blurred. -/
def TextInput.New : TextInput :=
  { value := "", pos := 0, focus := false, Prompt := "> ",
    PromptStyle := Style.zero, TextStyle := Style.zero }

/-- `Model.Value()`. -/
def TextInput.Value (t : TextInput) : String := t.value

/-- `Model.Focused()`. -/
def TextInput.Focused (t : TextInput) : Bool := t.focus

/-- `Model.Focus()` (the returned blink command is discarded by the caller). -/
def TextInput.Focus (t : TextInput) : TextInput := { t with focus := true }

/-- `Model.Blur()`. -/
def TextInput.Blur (t : TextInput) : TextInput := { t with focus := false }

/-- State of `viewport.Model`: geometry, scroll offset, style, the content last
given to `SetContent`, and whether it was built by `viewport.New` (the Go zero
value has no key map). -/
structure Viewport where
  Width : Int
  Height : Int
  YOffset : Int
  YPosition : Int
  HighPerformanceRendering : Bool
  Style : Style
  content : String
  hasKeyMap : Bool
deriving DecidableEq, Repr

/-- The Go zero value of `viewport.Model` (the `preview` field before the first
resize). -/
def Viewport.zero : Viewport :=
  { Width := 0, Height := 0, YOffset := 0, YPosition := 0,
    HighPerformanceRendering := false, Style := Style.zero, content := "",
    hasKeyMap := false }

/-- `viewport.New(width, height)`. -/
def Viewport.New (width height : Int) : Viewport :=
  { Viewport.zero with Width := width, Height := height, hasKeyMap := true }

/-! ## Subprocesses -/

/-- The `*exec.Cmd` built by `exec.Command(shell, invoke, value)` with its
standard input attached. -/
structure ExecCmd where
  shell : String
  invoke : String
  value : String
  stdin : String
deriving DecidableEq, Repr

/-- Outcome of `cmd.Run()`: the bytes collected in the two buffers, and the
text of the returned error (`err.Error()`), `none` when `err == nil`. -/
structure RunResult where
  stdout : String
  stderr : String
  err : Option String
deriving DecidableEq, Repr

/-! ## The collaborators' behaviour, as a parameter -/

/-- What the external widgets, the renderer and the operating system compute. -/
structure Lib where
  /-- `textinput.Model.Update` -/
  tiUpdate : TextInput → Msg → TextInput
  /-- `viewport.Model.Update`; `none` is the nil message -/
  vpUpdate : Viewport → Option Msg → Viewport
  /-- `viewport.Model.SetYOffset` -/
  setYOffset : Viewport → Int → Viewport
  /-- `viewport.Model.SetContent` -/
  setContent : Viewport → String → Viewport
  /-- `exec.Cmd.Run` on the command with buffers attached -/
  run : ExecCmd → RunResult
  /-- `lipgloss.Height(self.pipe.View())` -/
  inputHeight : TextInput → Int
  /-- `lipgloss.Height(self.ErrorView())`, a function of `stderr` and the viewer -/
  errorHeight : String → Viewport → Int
  /-- `lipgloss.Height(self.HeaderView())` -/
  headerHeight : TextInput → Viewport → Int
  /-- `lipgloss.Height(self.FooterView())` -/
  footerHeight : TextInput → Viewport → Int

end PipePreview

/-! ## The program state -/

/-- The struct `PipePreview` of `tpp.go`. -/
structure PipePreview where
  ready : Bool
  stdin : String
  stderr : String
  stdout : String
  prev : String
  pipe : PipePreview.TextInput
  lastYOffset : Int
  preview : PipePreview.Viewport
  cmd : Option PipePreview.ExecCmd
  shell : String
  invoke : String
deriving DecidableEq, Repr

namespace PipePreview

/-- The constant `useHighPerformanceRenderer`. -/
def useHighPerformanceRenderer : Bool := false

/-- `NewPipePreview(stdin)`; `shellEnv` is the value of `os.Getenv("SHELL")`. -/
def NewPipePreview (shellEnv : String) (stdin : String) : PipePreview :=
  let ti := TextInput.New
  let ti := ti.Focus
  let ti := { ti with Prompt := "| " }
  let ti := { ti with PromptStyle := ti.PromptStyle.Padding 0 1 }
  let shell := if shellEnv ≠ "" then shellEnv else "bash"
  let invoke := "-c"
  { ready := false
    stdin := stdin
    stderr := ""
    stdout := stdin
    prev := ""
    pipe := ti
    lastYOffset := 0
    preview := Viewport.zero
    cmd := none
    shell := shell
    invoke := invoke }

/-- `Flush`: the text written to standard output, then the text written to
standard error. -/
def Flush (self : PipePreview) : String × String :=
  (self.stdout, self.stderr)

/-- `RunCmd`: the new state and the commands on which `cmd.Run()` was called. -/
def RunCmd (L : Lib) (self : PipePreview) : PipePreview × List ExecCmd :=
  let value := self.pipe.Value
  -- clear
  if value = "" then
    ({ self with stdout := self.stdin, stderr := "" }, [])
  else
    -- ready cmd, setup std in/out/err
    let c : ExecCmd :=
      { shell := self.shell, invoke := self.invoke, value := value, stdin := self.stdin }
    let self := { self with cmd := some c }
    -- run cmd
    let r := L.run c
    match r.err with
    | some e => ({ self with stderr := e }, [c])
    | none =>
      let self := { self with stdout := r.stdout, stderr := r.stderr }
      let self := { self with preview := L.setContent self.preview self.stdout }
      let self := { self with cmd := none }
      (self, [c])

/-- What `Update` returns and does: the model, whether the command is
`tea.Quit`, the commands on which `cmd.Run()` was called, the texts written to
the clipboard. -/
structure UpdateResult where
  model : PipePreview
  quit : Bool
  runs : List ExecCmd
  clipboard : List String
deriving DecidableEq, Repr

/-- The `switch msg := msg.(type)` block of `Update`: `none` when it returns
`self, tea.Quit`, otherwise the state after the block and the clipboard
writes. -/
def handleMsg (L : Lib) (self : PipePreview) (msg : Msg) :
    Option (PipePreview × List String) :=
  match msg with
  | Msg.key k =>
    if k = "ctrl+o" then
      some (self, [self.stdout])
    else if k = "ctrl+p" then
      some (self, [self.pipe.Value])
    else if k = "ctrl+c" ∨ k = "ctrl+q" ∨ k = "esc" then
      none
    else if k = "tab" then
      if self.pipe.Focused then
        some ({ self with pipe := self.pipe.Blur }, [])
      else
        some ({ self with pipe := self.pipe.Focus }, [])
    else
      some (self, [])
  | Msg.windowSize Width Height =>
    let inputHeight := L.inputHeight self.pipe
    let errorHeight := L.errorHeight self.stderr self.preview
    let headerHeight := L.headerHeight self.pipe self.preview
    let footerHeight := L.footerHeight self.pipe self.preview
    let verticalMarginHeight := inputHeight + errorHeight + headerHeight + footerHeight
    if !self.ready then
      let p := Viewport.New Width (Height - verticalMarginHeight)
      let p := { p with YPosition := headerHeight + inputHeight + errorHeight }
      let p := { p with HighPerformanceRendering := useHighPerformanceRenderer }
      let p := L.setContent p self.stdout
      let p := { p with YPosition := headerHeight + 1 }
      some ({ self with preview := p, ready := true }, [])
    else
      let p := { self.preview with Width := Width }
      let p := { p with Height := Height - verticalMarginHeight }
      some ({ self with preview := p }, [])
  | Msg.other _ => some (self, [])

/-- The part of `Update` after the `switch` (from `// update pipe input` to the
final `return`); `clip` are the clipboard writes made by the `switch`. -/
def reconcile (L : Lib) (self : PipePreview) (msg : Msg) (clip : List String) :
    UpdateResult :=
  -- update pipe input
  let current := self.pipe.Value
  let self := { self with pipe := L.tiUpdate self.pipe msg }
  -- freeze preview
  let focused := self.pipe.Focused
  let previewMessage : Option Msg := if focused then none else some msg
  let self :=
    if focused then
      { self with preview := L.setYOffset self.preview self.lastYOffset }
    else
      { self with lastYOffset := self.preview.YOffset }
  -- set fainting
  let self :=
    { self with pipe := { self.pipe with TextStyle := self.pipe.TextStyle.Faint (!focused) } }
  let self :=
    { self with pipe := { self.pipe with PromptStyle := self.pipe.PromptStyle.Faint (!focused) } }
  let self :=
    { self with preview := { self.preview with Style := self.preview.Style.Faint focused } }
  -- update preview
  let self := { self with preview := L.vpUpdate self.preview previewMessage }
  -- run command
  let ran := if current ≠ self.prev then RunCmd L self else (self, [])
  let self := ran.1
  let self := { self with prev := current }
  { model := self, quit := false, runs := ran.2, clipboard := clip }

/-- `Update`: the `switch`, then, unless it returned `tea.Quit`, the rest. -/
def Update (L : Lib) (self : PipePreview) (msg : Msg) : UpdateResult :=
  match handleMsg L self msg with
  | none => { model := self, quit := true, runs := [], clipboard := [] }
  | some (self, clip) => reconcile L self msg clip

/-- The event loop: `Update` applied to the events in order, stopping at the
first `tea.Quit`. -/
def runEvents (L : Lib) (self : PipePreview) : List Msg → PipePreview
  | [] => self
  | m :: ms =>
    let r := Update L self m
    if r.quit then r.model else runEvents L r.model ms

/-! ## A concrete set of collaborators

`refLib` behaves like the real widgets on the inputs used below: the editor
ignores messages while blurred, appends a typed character and removes the last
one on backspace; the viewer scrolls one line on `down` and `up` within the
range allowed by its content and height; the runner knows a few shell commands
(`:` and `true` succeed silently, `cat` copies its input, `false` exits with
status 1, anything else is not found). -/

/-- The editor of `refLib`. -/
def refTiUpdate (t : TextInput) (msg : Msg) : TextInput :=
  if !t.focus then t
  else
    match msg with
    | Msg.key k =>
      match k.data with
      | [c] => { t with value := t.value.push c, pos := t.pos + 1 }
      | _ =>
        if k = "backspace" then
          { t with value := String.mk t.value.data.dropLast, pos := t.pos - 1 }
        else t
    | _ => t

/-- Number of lines of a content (`strings.Split(s, "\n")`). -/
def lineCount (s : String) : Int := (s.data.count '\n' : Nat) + 1

/-- Largest scroll offset of a viewer. -/
def maxYOffset (v : Viewport) : Int := max 0 (lineCount v.content - v.Height)

/-- The viewer's `SetYOffset` in `refLib`: clamped to the scroll range. -/
def refSetYOffset (v : Viewport) (n : Int) : Viewport :=
  { v with YOffset := max 0 (min n (maxYOffset v)) }

/-- The viewer's `SetContent` in `refLib`. -/
def refSetContent (v : Viewport) (s : String) : Viewport :=
  let v := { v with content := s }
  if v.YOffset > lineCount s - 1 then { v with YOffset := maxYOffset v } else v

/-- The viewer's `Update` in `refLib`. -/
def refVpUpdate (v : Viewport) (msg : Option Msg) : Viewport :=
  match msg with
  | some (Msg.key k) =>
    if !v.hasKeyMap then v
    else if k = "down" then refSetYOffset v (v.YOffset + 1)
    else if k = "up" then refSetYOffset v (v.YOffset - 1)
    else v
  | _ => v

/-- The runner of `refLib`. -/
def refRun (c : ExecCmd) : RunResult :=
  if c.value = ":" ∨ c.value = "true" then { stdout := "", stderr := "", err := none }
  else if c.value = "cat" then { stdout := c.stdin, stderr := "", err := none }
  else if c.value = "false" then { stdout := "", stderr := "", err := some "exit status 1" }
  else { stdout := "", stderr := "command not found", err := some "exit status 127" }

/-- A concrete set of collaborators. -/
def refLib : Lib :=
  { tiUpdate := refTiUpdate
    vpUpdate := refVpUpdate
    setYOffset := refSetYOffset
    setContent := refSetContent
    run := refRun
    inputHeight := fun _ => 1
    errorHeight := fun _ _ => 3
    headerHeight := fun _ _ => 3
    footerHeight := fun _ _ => 3 }

end PipePreview

/-! ## Statements used by the theorems -/

namespace PipePreview

/-- The command `RunCmd` builds in state `self`. -/
def commandOf (self : PipePreview) : ExecCmd :=
  { shell := self.shell, invoke := self.invoke, value := self.pipe.Value, stdin := self.stdin }

/-- The editor holds focus. -/
def EditorFocused (s : PipePreview) : Prop := s.pipe.Focused = true

/-- The viewer holds focus: `Update` hands it the message instead of nil. -/
def ViewerFocused (s : PipePreview) : Prop := s.pipe.Focused = false

instance (s : PipePreview) : Decidable (EditorFocused s) :=
  inferInstanceAs (Decidable (s.pipe.Focused = true))

instance (s : PipePreview) : Decidable (ViewerFocused s) :=
  inferInstanceAs (Decidable (s.pipe.Focused = false))

/-- The stored result reflects the editor's text `C`: for empty `C`, `stdout` is
the input buffer and `stderr` is empty; when running `C` on the input buffer
returns no error, `stdout` and `stderr` are that run's captured output and
error output; when it returns an error, `stderr` is the error's text. -/
def Reflects (L : Lib) (s : PipePreview) : Prop :=
  if s.pipe.Value = "" then s.stdout = s.stdin ∧ s.stderr = ""
  else
    match (L.run (commandOf s)).err with
    | none =>
      s.stdout = (L.run (commandOf s)).stdout ∧ s.stderr = (L.run (commandOf s)).stderr
    | some e => s.stderr = e

/-- The editor after it handled `msg`, with the fainting `Update` sets. -/
def pipeAfter (L : Lib) (t : TextInput) (msg : Msg) : TextInput :=
  { L.tiUpdate t msg with
    TextStyle := (L.tiUpdate t msg).TextStyle.Faint (!(L.tiUpdate t msg).focus)
    PromptStyle := (L.tiUpdate t msg).PromptStyle.Faint (!(L.tiUpdate t msg).focus) }

/-- The state `Update` has reached when it arrives at `// run command`, written
out by cases on the editor's focus. -/
def beforeRun (L : Lib) (s : PipePreview) (msg : Msg) : PipePreview :=
  if (L.tiUpdate s.pipe msg).focus then
    { s with
      pipe := pipeAfter L s.pipe msg
      preview := L.vpUpdate
        { L.setYOffset s.preview s.lastYOffset with
          Style := (L.setYOffset s.preview s.lastYOffset).Style.Faint true } none }
  else
    { s with
      pipe := pipeAfter L s.pipe msg
      lastYOffset := s.preview.YOffset
      preview := L.vpUpdate { s.preview with Style := s.preview.Style.Faint false } (some msg) }

/-- The editor does not change its focus flag when it handles `m`. -/
def KeepsFocus (L : Lib) (m : Msg) : Prop := ∀ t : TextInput, (L.tiUpdate t m).focus = t.focus

/-- The state the event loop reaches from `NewPipePreview` on the events `es`. -/
def finalState (L : Lib) (shellEnv stdin : String) (es : List Msg) : PipePreview :=
  runEvents L (NewPipePreview shellEnv stdin) es

/-- Typing `false` one key at a time, then one further message (such as a
cursor blink). -/
def typeFalseThenTick : List Msg :=
  [Msg.key "f", Msg.key "a", Msg.key "l", Msg.key "s", Msg.key "e", Msg.other 0]

/-- First resize, `:` typed and run, then the text deleted again and one further
message. -/
def runThenClear : List Msg :=
  [Msg.windowSize 80 12, Msg.key ":", Msg.other 0, Msg.key "backspace", Msg.other 0]

/-- Typing `cat` one key at a time, before the last key. -/
def typeCa : List Msg := [Msg.key "c", Msg.key "a"]

/-- Input of four lines; first resize (viewer two lines high), focus moved to the
viewer, one line scrolled down. -/
def scrolledOnce : PipePreview :=
  finalState refLib "" "a\nb\nc\nd\n" [Msg.windowSize 80 12, Msg.key "tab", Msg.key "down"]

/-- As `scrolledOnce`, with three lines scrolled down, one key at a time. -/
def scrolledThrice : PipePreview :=
  finalState refLib "" "a\nb\nc\nd\n"
    [Msg.windowSize 80 12, Msg.key "tab", Msg.key "down", Msg.key "down", Msg.key "down"]

/-- A state with the given input buffer and editor text, otherwise as built by
`NewPipePreview`. -/
def withText (stdin text : String) : PipePreview :=
  let s := NewPipePreview "" stdin
  { s with pipe := { s.pipe with value := text } }

end PipePreview

/-! ## Lemmas -/

namespace PipePreview

/-- The editor of `refLib` never changes its focus flag. -/
theorem refTiUpdate_focus (t : TextInput) (m : Msg) : (refTiUpdate t m).focus = t.focus := by
  unfold refTiUpdate
  split
  · rfl
  · split
    · split
      · rfl
      · split <;> rfl
    · rfl

theorem reconcile_eq (L : Lib) (s : PipePreview) (msg : Msg) (clip : List String) :
    reconcile L s msg clip =
      { model :=
          { (if s.pipe.Value ≠ s.prev then RunCmd L (beforeRun L s msg)
              else (beforeRun L s msg, [])).1 with prev := s.pipe.Value }
        quit := false
        runs := (if s.pipe.Value ≠ s.prev then RunCmd L (beforeRun L s msg)
              else (beforeRun L s msg, [])).2
        clipboard := clip } := by
  unfold reconcile beforeRun pipeAfter
  cases h : (L.tiUpdate s.pipe msg).focus <;>
    simp only [TextInput.Focused, h, Bool.false_eq_true, if_false, if_true, Bool.not_false,
      Bool.not_true]

theorem RunCmd_frame (L : Lib) (s : PipePreview) :
    (RunCmd L s).1.pipe = s.pipe ∧ (RunCmd L s).1.stdin = s.stdin ∧
    (RunCmd L s).1.shell = s.shell ∧ (RunCmd L s).1.invoke = s.invoke ∧
    (RunCmd L s).1.lastYOffset = s.lastYOffset ∧ (RunCmd L s).1.prev = s.prev := by
  unfold RunCmd
  dsimp only
  split
  · simp
  · split <;> simp

theorem beforeRun_frame (L : Lib) (s : PipePreview) (msg : Msg) :
    (beforeRun L s msg).pipe = pipeAfter L s.pipe msg ∧
    (beforeRun L s msg).stdin = s.stdin ∧ (beforeRun L s msg).shell = s.shell ∧
    (beforeRun L s msg).invoke = s.invoke ∧ (beforeRun L s msg).stdout = s.stdout ∧
    (beforeRun L s msg).stderr = s.stderr ∧ (beforeRun L s msg).prev = s.prev := by
  unfold beforeRun
  split <;> simp

theorem handleMsg_frame (L : Lib) (s s1 : PipePreview) (msg : Msg) (clip : List String)
    (h : handleMsg L s msg = some (s1, clip)) :
    s1.pipe.value = s.pipe.value ∧ s1.stdin = s.stdin ∧ s1.shell = s.shell ∧
    s1.invoke = s.invoke ∧ s1.stdout = s.stdout ∧ s1.stderr = s.stderr ∧
    s1.prev = s.prev := by
  unfold handleMsg at h
  split at h
  · split_ifs at h <;> simp only [Option.some.injEq, Prod.mk.injEq] at h <;>
      obtain ⟨rfl, _⟩ := h <;> simp [TextInput.Blur, TextInput.Focus]
  · dsimp only at h
    split_ifs at h <;> simp only [Option.some.injEq, Prod.mk.injEq] at h <;>
      obtain ⟨rfl, _⟩ := h <;> simp
  · simp only [Option.some.injEq, Prod.mk.injEq] at h
    obtain ⟨rfl, _⟩ := h
    simp

theorem Reflects_congr (L : Lib) (s t : PipePreview)
    (h1 : s.pipe.value = t.pipe.value) (h2 : s.stdin = t.stdin) (h3 : s.shell = t.shell)
    (h4 : s.invoke = t.invoke) (h5 : s.stdout = t.stdout) (h6 : s.stderr = t.stderr) :
    Reflects L s ↔ Reflects L t := by
  simp only [Reflects, commandOf, TextInput.Value, h1, h2, h3, h4, h5, h6]

theorem RunCmd_reflects (L : Lib) (s : PipePreview) : Reflects L (RunCmd L s).1 := by
  by_cases hv : s.pipe.Value = ""
  · simp [Reflects, RunCmd, hv]
  · cases hr : (L.run (commandOf s)).err <;> simp only [commandOf] at hr <;>
      simp [Reflects, RunCmd, commandOf, hv, hr]

theorem reconcile_model_run (L : Lib) (s : PipePreview) (msg : Msg) (clip : List String)
    (h : s.pipe.Value ≠ s.prev) :
    (reconcile L s msg clip).model =
      { (RunCmd L (beforeRun L s msg)).1 with prev := s.pipe.Value } ∧
    (reconcile L s msg clip).runs = (RunCmd L (beforeRun L s msg)).2 := by
  rw [reconcile_eq]
  simp only [h, ne_eq, not_false_eq_true, if_true, and_self]

theorem reconcile_model_norun (L : Lib) (s : PipePreview) (msg : Msg) (clip : List String)
    (h : s.pipe.Value = s.prev) :
    (reconcile L s msg clip).model = { beforeRun L s msg with prev := s.pipe.Value } ∧
    (reconcile L s msg clip).runs = [] := by
  rw [reconcile_eq]
  simp only [h, ne_eq, not_true_eq_false, if_false, and_self]

/-- One `reconcile` keeps the input buffer, the shell and its flag, and the
property "if the change detector has caught up, the result reflects the
text". -/
theorem reconcile_settled (L : Lib) (s : PipePreview) (msg : Msg) (clip : List String)
    (hinv : s.prev = s.pipe.Value → Reflects L s) :
    (reconcile L s msg clip).model.stdin = s.stdin ∧
    (reconcile L s msg clip).model.shell = s.shell ∧
    (reconcile L s msg clip).model.invoke = s.invoke ∧
    ((reconcile L s msg clip).model.prev = (reconcile L s msg clip).model.pipe.Value →
      Reflects L (reconcile L s msg clip).model) := by
  obtain ⟨b1, b2, b3, b4, b5, b6, b7⟩ := beforeRun_frame L s msg
  by_cases hc : s.pipe.Value = s.prev
  · rw [(reconcile_model_norun L s msg clip hc).1]
    refine ⟨b2, b3, b4, ?_⟩
    intro hp
    have hval : (beforeRun L s msg).pipe.value = s.pipe.value := by
      simpa [TextInput.Value] using hp.symm
    exact (Reflects_congr L _ s hval b2 b3 b4 b5 b6).2 (hinv hc.symm)
  · obtain ⟨r1, r2, r3, r4, r5, r6⟩ := RunCmd_frame L (beforeRun L s msg)
    rw [(reconcile_model_run L s msg clip hc).1]
    refine ⟨r2.trans b2, r3.trans b3, r4.trans b4, ?_⟩
    intro _
    exact (Reflects_congr L _ (RunCmd L (beforeRun L s msg)).1 rfl rfl rfl rfl rfl rfl).2
      (RunCmd_reflects L _)

theorem Update_settled (L : Lib) (s : PipePreview) (msg : Msg)
    (hinv : s.prev = s.pipe.Value → Reflects L s) :
    (Update L s msg).model.stdin = s.stdin ∧
    (Update L s msg).model.shell = s.shell ∧
    (Update L s msg).model.invoke = s.invoke ∧
    ((Update L s msg).model.prev = (Update L s msg).model.pipe.Value →
      Reflects L (Update L s msg).model) := by
  unfold Update
  cases hh : handleMsg L s msg with
  | none => exact ⟨rfl, rfl, rfl, hinv⟩
  | some p =>
    obtain ⟨s1, clip⟩ := p
    obtain ⟨f1, f2, f3, f4, f5, f6, f7⟩ := handleMsg_frame L s s1 msg clip hh
    have hinv1 : s1.prev = s1.pipe.Value → Reflects L s1 := by
      intro hp
      have : s.prev = s.pipe.Value := by
        rw [← f7, hp]; exact f1
      exact (Reflects_congr L s1 s f1 f2 f3 f4 f5 f6).2 (hinv this)
    obtain ⟨g1, g2, g3, g4⟩ := reconcile_settled L s1 msg clip hinv1
    exact ⟨g1.trans f2, g2.trans f3, g3.trans f4, g4⟩

theorem runEvents_settled (L : Lib) (es : List Msg) (s : PipePreview)
    (hinv : s.prev = s.pipe.Value → Reflects L s) :
    (runEvents L s es).stdin = s.stdin ∧
    (runEvents L s es).shell = s.shell ∧
    (runEvents L s es).invoke = s.invoke ∧
    ((runEvents L s es).prev = (runEvents L s es).pipe.Value →
      Reflects L (runEvents L s es)) := by
  induction es generalizing s with
  | nil => exact ⟨rfl, rfl, rfl, hinv⟩
  | cons m ms ih =>
    obtain ⟨u1, u2, u3, u4⟩ := Update_settled L s m hinv
    unfold runEvents
    dsimp only
    split
    · exact ⟨u1, u2, u3, u4⟩
    · obtain ⟨i1, i2, i3, i4⟩ := ih (Update L s m).model u4
      exact ⟨i1.trans u1, i2.trans u2, i3.trans u3, i4⟩

theorem reconcile_pipe (L : Lib) (s : PipePreview) (msg : Msg) (clip : List String) :
    (reconcile L s msg clip).model.pipe = pipeAfter L s.pipe msg ∧
    (reconcile L s msg clip).quit = false := by
  refine ⟨?_, by rw [reconcile_eq]⟩
  by_cases hc : s.pipe.Value = s.prev
  · rw [(reconcile_model_norun L s msg clip hc).1]
    exact (beforeRun_frame L s msg).1
  · rw [(reconcile_model_run L s msg clip hc).1]
    exact (RunCmd_frame L _).1.trans (beforeRun_frame L s msg).1

theorem handleMsg_tab (L : Lib) (s : PipePreview) :
    handleMsg L s (Msg.key "tab") =
      some ({ s with pipe := if s.pipe.focus then s.pipe.Blur else s.pipe.Focus }, []) := by
  cases h : s.pipe.focus <;> simp [handleMsg, TextInput.Focused, h]

theorem Update_tab (L : Lib) (s : PipePreview) :
    Update L s (Msg.key "tab") =
      reconcile L { s with pipe := if s.pipe.focus then s.pipe.Blur else s.pipe.Focus }
        (Msg.key "tab") [] := by
  unfold Update
  rw [handleMsg_tab]

end PipePreview

/-! ## The claims -/

namespace PipePreview

/-! ### C1 -/

/-- C1 as stated fails. Input `x`; `false` is typed and one more message is
handled, so the editor text is `false` and the change detector has caught up.
Running `false` on `x` prints nothing and fails, yet the stored `stdout` is
still `x`, the result that belongs to the empty command text. -/
theorem stdout_stale_after_failed_run :
    (finalState refLib "" "x" typeFalseThenTick).pipe.Value = "false" ∧
    (finalState refLib "" "x" typeFalseThenTick).prev = "false" ∧
    refLib.run { shell := "bash", invoke := "-c", value := "false", stdin := "x" } =
      { stdout := "", stderr := "", err := some "exit status 1" } ∧
    (finalState refLib "" "x" typeFalseThenTick).stdout = "x" ∧
    (finalState refLib "" "x" typeFalseThenTick).stdout = (NewPipePreview "" "x").stdout ∧
    (finalState refLib "" "x" typeFalseThenTick).stdout ≠
      (refLib.run (commandOf (finalState refLib "" "x" typeFalseThenTick))).stdout := by
  decide

/-- C1, amended. For every input buffer and every sequence of events handled
from the state built by `NewPipePreview`: the input buffer, shell and flag are
the original ones, and whenever the change detector has caught up with the
editor (`prev` equals the editor text `C`), the stored result reflects `C`: for
empty `C`, `stdout` is the input buffer and `stderr` is empty; when running `C`
on the original input buffer returns no error, `stdout` and `stderr` are that
run's captured output and error output; when it returns an error, `stderr` is
the error's text. -/
theorem result_reflects_text_when_settled (L : Lib) (shellEnv stdin : String)
    (es : List Msg)
    (h : (finalState L shellEnv stdin es).prev = (finalState L shellEnv stdin es).pipe.Value) :
    (finalState L shellEnv stdin es).stdin = stdin ∧
    (finalState L shellEnv stdin es).shell = (NewPipePreview shellEnv stdin).shell ∧
    (finalState L shellEnv stdin es).invoke = "-c" ∧
    ((finalState L shellEnv stdin es).pipe.Value = "" →
      (finalState L shellEnv stdin es).stdout = stdin ∧
      (finalState L shellEnv stdin es).stderr = "") ∧
    ((finalState L shellEnv stdin es).pipe.Value ≠ "" →
      (L.run (commandOf (finalState L shellEnv stdin es))).err = none →
      (finalState L shellEnv stdin es).stdout =
        (L.run (commandOf (finalState L shellEnv stdin es))).stdout ∧
      (finalState L shellEnv stdin es).stderr =
        (L.run (commandOf (finalState L shellEnv stdin es))).stderr) ∧
    (∀ e, (finalState L shellEnv stdin es).pipe.Value ≠ "" →
      (L.run (commandOf (finalState L shellEnv stdin es))).err = some e →
      (finalState L shellEnv stdin es).stderr = e) := by
  have h0 : (NewPipePreview shellEnv stdin).prev = (NewPipePreview shellEnv stdin).pipe.Value →
      Reflects L (NewPipePreview shellEnv stdin) := by
    intro _
    simp [Reflects, NewPipePreview, TextInput.Value, TextInput.Focus, TextInput.New]
  obtain ⟨k1, k2, k3, k4⟩ := runEvents_settled L es (NewPipePreview shellEnv stdin) h0
  have hr := k4 h
  unfold finalState at *
  refine ⟨k1, k2, k3, ?_, ?_, ?_⟩
  · intro hv
    have := hr
    simp only [Reflects, hv, if_true] at this
    rw [k1] at this
    exact this
  · intro hv hok
    have := hr
    simp only [Reflects, hv, if_false, hok] at this
    exact this
  · intro e hv herr
    have := hr
    simp only [Reflects, hv, if_false, herr] at this
    exact this

/-- Witness for C1: input `x`, the key `:` and one further message; the editor
text `:` has been run and `stdout` is its (empty) output. -/
theorem result_reflects_text_when_settled_witness :
    (finalState refLib "" "x" [Msg.key ":", Msg.other 0]).prev =
      (finalState refLib "" "x" [Msg.key ":", Msg.other 0]).pipe.Value ∧
    (finalState refLib "" "x" [Msg.key ":", Msg.other 0]).pipe.Value = ":" ∧
    (finalState refLib "" "x" [Msg.key ":", Msg.other 0]).stdout = "" :=
  ⟨by decide, by decide,
    ((result_reflects_text_when_settled refLib "" "x" [Msg.key ":", Msg.other 0]
      (by decide)).2.2.2.2.1 (by decide) (by decide)).1⟩

/-! ### C2 -/

/-- C2 as stated fails. Input `x`, editor text `false`: the run captures the
empty output and fails, but after `RunCmd` the stored `stdout` is still `x`. -/
theorem failed_run_keeps_stdout :
    (withText "x" "false").stdout = "x" ∧
    refLib.run (commandOf (withText "x" "false")) =
      { stdout := "", stderr := "", err := some "exit status 1" } ∧
    (RunCmd refLib (withText "x" "false")).1.stdout = "x" ∧
    (RunCmd refLib (withText "x" "false")).1.stdout ≠
      (refLib.run (commandOf (withText "x" "false"))).stdout ∧
    (RunCmd refLib (withText "x" "false")).1.stderr = "exit status 1" := by
  decide

/-- C2, amended. Failed run in `RunCmd`: for a non-empty editor text whose run
returns an error (the subprocess fails to start or exits non-zero), `RunCmd`
calls the runner exactly once, on `shell invoke text` with the input buffer as
standard input, and replaces `stderr` by the text of the returned error, a
non-empty description of the failure; `stdout`, the viewer (with its content)
and the input buffer are left as they were, so the output the run captured is
not stored. The text of an error returned by the runner is assumed non-empty. -/
theorem RunCmd_failure (L : Lib) (self : PipePreview) (e : String)
    (hne : self.pipe.Value ≠ "") (herr : (L.run (commandOf self)).err = some e)
    (hdesc : e ≠ "") :
    (RunCmd L self).2 = [commandOf self] ∧
    (RunCmd L self).1.stderr = e ∧
    (RunCmd L self).1.stderr ≠ "" ∧
    (RunCmd L self).1.stdout = self.stdout ∧
    (RunCmd L self).1.preview = self.preview ∧
    (RunCmd L self).1.stdin = self.stdin := by
  simp only [commandOf] at herr
  simp [RunCmd, hne, herr, hdesc, commandOf]

/-- Witness for C2: `false` on input `x`. -/
theorem RunCmd_failure_witness :
    (withText "x" "false").pipe.Value ≠ "" ∧
    (refLib.run (commandOf (withText "x" "false"))).err = some "exit status 1" ∧
    "exit status 1" ≠ "" ∧
    (RunCmd refLib (withText "x" "false")).1.stderr = "exit status 1" ∧
    (RunCmd refLib (withText "x" "false")).1.stdout = "x" :=
  ⟨by decide, by decide, by decide,
    (RunCmd_failure refLib (withText "x" "false") "exit status 1" (by decide)
      (by decide) (by decide)).2.1,
    (RunCmd_failure refLib (withText "x" "false") "exit status 1" (by decide)
      (by decide) (by decide)).2.2.2.1⟩

/-! ### C3 -/

/-- C3 at its failing input. Input `x`; after the first resize the command `:`
is typed and run (it prints nothing), then deleted again. The viewer is ready,
the editor is empty, `stdout` (what `Flush` writes) is `x` again, but the
viewer still holds the empty output of `:`. -/
theorem viewer_content_stale_after_clear :
    (finalState refLib "" "x" runThenClear).ready = true ∧
    (finalState refLib "" "x" runThenClear).pipe.Value = "" ∧
    (finalState refLib "" "x" runThenClear).stdout = "x" ∧
    Flush (finalState refLib "" "x" runThenClear) = ("x", "") ∧
    (finalState refLib "" "x" runThenClear).preview.content = "" ∧
    (finalState refLib "" "x" runThenClear).preview.content ≠
      (finalState refLib "" "x" runThenClear).stdout := by
  decide

/-! ### C4 -/

/-- C4. Empty-command case of `RunCmd`: when the editor text is empty, no
subprocess is started, the `cmd` field is untouched, `stdout` becomes the input
buffer, `stderr` becomes empty and the input buffer is unchanged (as is every
other field). -/
theorem RunCmd_empty (L : Lib) (self : PipePreview) (h : self.pipe.Value = "") :
    (RunCmd L self).2 = [] ∧
    (RunCmd L self).1.cmd = self.cmd ∧
    (RunCmd L self).1.stdout = self.stdin ∧
    (RunCmd L self).1.stderr = "" ∧
    (RunCmd L self).1.stdin = self.stdin ∧
    (RunCmd L self).1 = { self with stdout := self.stdin, stderr := "" } := by
  simp [RunCmd, h]

/-- Witness for C4: the state built from input `x`, whose editor is empty. -/
theorem RunCmd_empty_witness :
    (NewPipePreview "" "x").pipe.Value = "" ∧
    (RunCmd refLib (NewPipePreview "" "x")).2 = [] ∧
    (RunCmd refLib (NewPipePreview "" "x")).1.stdout = "x" :=
  ⟨rfl, (RunCmd_empty refLib (NewPipePreview "" "x") rfl).1,
    (RunCmd_empty refLib (NewPipePreview "" "x") rfl).2.2.1⟩

/-! ### C5 -/

/-- C5. Successful run in `RunCmd`: for a non-empty editor text whose
subprocess returns no error, exactly one subprocess is started, namely
`shell invoke text` with the input buffer as standard input; afterwards
`stdout` and `stderr` are that run's captured output and error output, and the
input buffer is unchanged. -/
theorem RunCmd_success (L : Lib) (self : PipePreview)
    (hne : self.pipe.Value ≠ "") (hok : (L.run (commandOf self)).err = none) :
    (RunCmd L self).2 =
      [{ shell := self.shell, invoke := self.invoke, value := self.pipe.Value,
         stdin := self.stdin }] ∧
    (RunCmd L self).1.stdout = (L.run (commandOf self)).stdout ∧
    (RunCmd L self).1.stderr = (L.run (commandOf self)).stderr ∧
    (RunCmd L self).1.stdin = self.stdin := by
  simp only [commandOf] at hok
  simp [RunCmd, hne, hok, commandOf]

/-- Witness for C5: `cat` on input `x`. -/
theorem RunCmd_success_witness :
    (withText "x" "cat").pipe.Value ≠ "" ∧
    (refLib.run (commandOf (withText "x" "cat"))).err = none ∧
    (RunCmd refLib (withText "x" "cat")).2 =
      [{ shell := "bash", invoke := "-c", value := "cat", stdin := "x" }] ∧
    (RunCmd refLib (withText "x" "cat")).1.stdout = "x" :=
  ⟨by decide, by decide,
    (RunCmd_success refLib (withText "x" "cat") (by decide) (by decide)).1,
    (RunCmd_success refLib (withText "x" "cat") (by decide) (by decide)).2.1⟩

/-! ### C6 -/

/-- C6 at its failing input. In `scrolledOnce` the viewer holds focus and its
scroll offset is 1, reached by a scroll handled on the immediately preceding
event; the recorded `lastYOffset` is still 0, the offset from before that
scroll. `tab` resets the viewer to offset 0, and `tab` again leaves the viewer
focused with offset 0, not 1. After three scrolls (`scrolledThrice`: offset 3,
recorded 2) the same round trip ends at offset 2: the last scroll is lost. -/
theorem last_scroll_lost_on_focus_round_trip :
    (ViewerFocused scrolledOnce ∧
      scrolledOnce.preview.YOffset = 1 ∧
      scrolledOnce.lastYOffset = 0 ∧
      EditorFocused (Update refLib scrolledOnce (Msg.key "tab")).model ∧
      (Update refLib scrolledOnce (Msg.key "tab")).model.preview.YOffset = 0 ∧
      ViewerFocused (Update refLib (runEvents refLib
        (Update refLib scrolledOnce (Msg.key "tab")).model []) (Msg.key "tab")).model ∧
      (Update refLib (runEvents refLib
        (Update refLib scrolledOnce (Msg.key "tab")).model [])
          (Msg.key "tab")).model.preview.YOffset = 0) ∧
    (ViewerFocused scrolledThrice ∧
      scrolledThrice.preview.YOffset = 3 ∧
      scrolledThrice.lastYOffset = 2 ∧
      ViewerFocused (Update refLib (runEvents refLib
        (Update refLib scrolledThrice (Msg.key "tab")).model []) (Msg.key "tab")).model ∧
      (Update refLib (runEvents refLib
        (Update refLib scrolledThrice (Msg.key "tab")).model [])
          (Msg.key "tab")).model.preview.YOffset = 2) := by
  decide

/-! ### C7 -/

/-- C7. Focus toggling: the state built by `NewPipePreview` has the editor
focused; for every state, `Update` on `tab` does not quit and flips the focus
flag; `tab` twice returns the focus to what it was; and in every state exactly
one of editor and viewer holds focus. The editor widget is assumed to keep its
focus flag when it handles `tab`. -/
theorem tab_toggles_focus (L : Lib) (hfocus : KeepsFocus L (Msg.key "tab")) :
    (∀ shellEnv stdin, EditorFocused (NewPipePreview shellEnv stdin)) ∧
    (∀ s : PipePreview, (Update L s (Msg.key "tab")).quit = false ∧
      (Update L s (Msg.key "tab")).model.pipe.Focused = !s.pipe.Focused) ∧
    (∀ s : PipePreview,
      (Update L (Update L s (Msg.key "tab")).model (Msg.key "tab")).model.pipe.Focused
        = s.pipe.Focused) ∧
    (∀ s : PipePreview, (EditorFocused s ∧ ¬ ViewerFocused s) ∨
      (ViewerFocused s ∧ ¬ EditorFocused s)) := by
  have flip : ∀ s : PipePreview,
      (Update L s (Msg.key "tab")).model.pipe.Focused = !s.pipe.Focused := by
    intro s
    rw [Update_tab, (reconcile_pipe L _ _ _).1]
    simp only [pipeAfter, TextInput.Focused, hfocus _]
    cases hs : s.pipe.focus <;> simp [TextInput.Focus, TextInput.Blur]
  refine ⟨?_, ?_, ?_, ?_⟩
  · intro shellEnv stdin
    simp [EditorFocused, NewPipePreview, TextInput.Focused, TextInput.Focus]
  · intro s
    refine ⟨?_, flip s⟩
    rw [Update_tab]
    exact (reconcile_pipe L _ _ _).2
  · intro s
    rw [flip, flip]
    simp
  · intro s
    cases hs : s.pipe.focus <;> simp [EditorFocused, ViewerFocused, TextInput.Focused, hs]

/-- Witness for C7: `refLib`, whose editor keeps its focus flag. -/
theorem tab_toggles_focus_witness :
    KeepsFocus refLib (Msg.key "tab") ∧
    (Update refLib (NewPipePreview "" "x") (Msg.key "tab")).model.pipe.Focused
      = !(NewPipePreview "" "x").pipe.Focused :=
  ⟨fun t => refTiUpdate_focus t _,
    ((tab_toggles_focus refLib (fun t => refTiUpdate_focus t _)).2.1
      (NewPipePreview "" "x")).2⟩

/-! ### C8 -/

/-- C8. Quit keys: for each of `ctrl+c`, `ctrl+q` and `esc` and every state
(whichever widget holds focus), `Update` returns `tea.Quit` with the model it
received, starts no subprocess and writes nothing to the clipboard; so `Flush`
of the returned model writes the `stdout` and `stderr` of the state the key was
pressed in. -/
theorem Update_quit (L : Lib) (self : PipePreview) :
    (Update L self (Msg.key "ctrl+c") =
        { model := self, quit := true, runs := [], clipboard := [] } ∧
      Update L self (Msg.key "ctrl+q") =
        { model := self, quit := true, runs := [], clipboard := [] } ∧
      Update L self (Msg.key "esc") =
        { model := self, quit := true, runs := [], clipboard := [] }) ∧
    (Flush (Update L self (Msg.key "ctrl+c")).model = (self.stdout, self.stderr) ∧
      Flush (Update L self (Msg.key "ctrl+q")).model = (self.stdout, self.stderr) ∧
      Flush (Update L self (Msg.key "esc")).model = (self.stdout, self.stderr)) := by
  simp [Update, handleMsg, Flush]

/-! ### C9 -/

/-- C9 at its failing input. In the state built from input `x`, the key `:`
changes the editor text from empty to `:`; `Update` starts no subprocess and
returns a model whose `prev` is still empty, not the editor text. And while
`cat` is typed, the key `t` runs `cat` and the next message runs `cat` a second
time. -/
theorem change_detection_lags_one_event :
    (Update refLib (NewPipePreview "" "x") (Msg.key ":")).quit = false ∧
    (Update refLib (NewPipePreview "" "x") (Msg.key ":")).model.pipe.Value = ":" ∧
    (Update refLib (NewPipePreview "" "x") (Msg.key ":")).runs = [] ∧
    (Update refLib (NewPipePreview "" "x") (Msg.key ":")).model.prev = "" ∧
    (Update refLib (NewPipePreview "" "x") (Msg.key ":")).model.prev ≠
      (Update refLib (NewPipePreview "" "x") (Msg.key ":")).model.pipe.Value ∧
    (Update refLib (finalState refLib "" "x" typeCa) (Msg.key "t")).runs =
      [{ shell := "bash", invoke := "-c", value := "cat", stdin := "x" }] ∧
    (Update refLib (Update refLib (finalState refLib "" "x" typeCa) (Msg.key "t")).model
        (Msg.other 0)).runs =
      [{ shell := "bash", invoke := "-c", value := "cat", stdin := "x" }] := by
  decide

/-! ### C10 -/

/-- C10 at its failing input. Input `x`, editor text `false`: after `RunCmd`
the `cmd` field still holds the command object of the failed run, and so does
the state reached by typing `false`. -/
theorem cmd_kept_after_failed_run :
    (withText "x" "false").cmd = none ∧
    (RunCmd refLib (withText "x" "false")).1.cmd =
      some { shell := "bash", invoke := "-c", value := "false", stdin := "x" } ∧
    (finalState refLib "" "x" typeFalseThenTick).cmd =
      some { shell := "bash", invoke := "-c", value := "false", stdin := "x" } := by
  decide

end PipePreview
